import Mathlib

/-!
Verification development for the HeyGenClone repository.

The repository is a Streamlit wizard (`src/app.py`) over three external
AI services, plus a generic retrying HTTP helper (`src/utils.py`) and a
standalone lip-sync experiment script.  This file gives a shallow
embedding of the data model and the operations the claims are about:

* the per-session key-value store (`SessionState`), holding the four
  staged artifacts `UPLOADED_FILE`, `RECOGNIZED_TEXT`, `TRANSLATED_TEXT`
  and `GENERATED_AUDIO`;
* the external-service wrappers `recognize_speech`, `translate_text`,
  `generate_voice`, `create_voice_clone`, with the network abstracted as
  an explicit oracle function so that "issues no network call" is a
  provable statement;
* the retry decoration applied to every wrapper (third-party `tenacity`
  library, used unmodified, with the exact parameters from the source:
  `stop_after_attempt(RETRIES)`, `reraise=True`,
  `retry_error_callback=logger.error`);
* the response handling of the generic API client `call_api`;
* the voice-catalog reshaping `build_voices_dataframe` over a model of
  Python dictionaries as association lists with Python's update/pop
  semantics;
* base64 encoding/decoding and `create_download_link`;
* the session-state transitions of `main` (upload change, transcript
  edit, translation edit, and the step-5 synthesis pass).

Network calls, JSON parsing and UTF-8 decoding of response lines are
abstracted as oracle inputs (a response record carries what the
corresponding library accessor would return); everything the claims
quantify over is embedded executably.
-/

/-! ## Session state (`st.session_state`)

The recognized entries and their Python-side keys:
`UPLOADED_FILE`, `RECOGNIZED_TEXT`, `TRANSLATED_TEXT`, `GENERATED_AUDIO`.
`GENERATED_AUDIO` holds a record `{audio, name, timestamp}`
(src/app.py lines 314-318). -/

/-- The record stored under `GENERATED_AUDIO` (src/app.py lines 314-318). -/
structure GenRecord where
  audioData : List Nat
  name : String
  timestamp : Nat
deriving DecidableEq, Repr

/-- The per-session mutable store, restricted to the four staged artifacts.
`none` models "key not in `st.session_state`". -/
structure SessionState where
  uploadedFile : Option String
  recognizedText : Option String
  translatedText : Option String
  generatedAudio : Option GenRecord
deriving DecidableEq, Repr

/-- `reset_session_state` (src/app.py lines 173-179): deletes
`RECOGNIZED_TEXT`, `TRANSLATED_TEXT` and `GENERATED_AUDIO` if present.
It does not touch `UPLOADED_FILE`. -/
def reset_session_state (s : SessionState) : SessionState :=
  { s with recognizedText := none, translatedText := none, generatedAudio := none }

/-! ## Speech recognition wrapper (src/app.py lines 57-79) -/

/-- Possible outcomes of one (non-retried) run of `recognize_speech`:
either a returned transcript, tagged with whether the transcription
service was called, or the `st.error` + `st.stop` size halt. -/
inductive RecOutcome where
  | result (text : String) (networkCalled : Bool)
  | sizeErrorHalt
deriving DecidableEq, Repr

/-- `recognize_speech` as the code executes it: line 61 is
`return "TEST"`, reached before the session-state check, the size check
and the service call, so every call returns the constant `"TEST"` and
lines 62-79 are unreachable. -/
def recognize_speech (_s : SessionState) (_net : List Nat → String)
    (_audioBuf : List Nat) : RecOutcome :=
  RecOutcome.result "TEST" false

/-- Lines 62-79 of `recognize_speech`: the code sitting behind the
line-61 `return "TEST"`.  Return the stored transcript if present;
otherwise halt with the size error when the buffer exceeds
25 * 1024 * 1024 bytes; otherwise submit the audio to the transcription
service (abstracted as the oracle `net`) and return the transcript. -/
def recognize_speech_after_line_61 (s : SessionState) (net : List Nat → String)
    (audioBuf : List Nat) : RecOutcome :=
  match s.recognizedText with
  | some t => RecOutcome.result t false
  | none =>
    if audioBuf.length > 25 * 1024 * 1024 then
      RecOutcome.sizeErrorHalt
    else
      RecOutcome.result (net audioBuf) true

/-! ## Python's `str.strip()` -/

/-- Python's notion of (ASCII) whitespace for `str.strip()`. -/
def isPySpace (c : Char) : Bool :=
  c == ' ' || c == '\t' || c == '\n' || c == '\r' || c == '\x0b' || c == '\x0c'

/-- Python's `str.strip()`: remove leading and trailing whitespace. -/
def pyStrip (s : String) : String :=
  String.mk (((s.toList.dropWhile isPySpace).reverse.dropWhile isPySpace).reverse)

/-! ## Translation wrapper (src/app.py lines 82-100) -/

/-- The two-message conversation built by `translate_text`
(src/app.py lines 91-94), as (role, content) pairs. -/
def translationMessages (dst_lang src_text : String) : List (String × String) :=
  [("system",
    "You are a highly skilled professional translator that understands every nuance of different languages and can create translations from user-provided source material that are indistinguishable from native speakers. The source material might come from an audio transcription (either edited or not) so it may require some cleaning or best effort interpretation. Skip filler words like 'um', 'erm' to create a professional, flowing translation instead. Source language: [ Auto-Detect ] Target language: [ " ++ dst_lang ++ " ]"),
   ("user", src_text)]

/-- `translate_text` (src/app.py lines 82-100): if `TRANSLATED_TEXT` is
already in the session, return it without a network call; otherwise send
the two-message conversation to the chat-completion service (oracle
`tnet`) and return the first choice's content stripped.  The second
component records whether a network call was issued. -/
def translate_text (s : SessionState) (tnet : List (String × String) → String)
    (src_text dst_lang : String) : String × Bool :=
  match s.translatedText with
  | some t => (t, false)
  | none => (pyStrip (tnet (translationMessages dst_lang src_text)), true)

/-! ## Voice generation wrapper (src/app.py lines 141-160) -/

/-- What `generate_voice` returns: fresh audio bytes from the
text-to-speech endpoint, or the stored `GENERATED_AUDIO` record. -/
inductive GenResult where
  | fresh (bytes : List Nat)
  | stored (rec : GenRecord)
deriving DecidableEq, Repr

/-- `generate_voice` (src/app.py lines 141-160): if `GENERATED_AUDIO` is
already in the session, return the stored record without a network call;
otherwise POST `{model_id: "eleven_multilingual_v2", text}` to the
text-to-speech endpoint for `voice_id` (oracle `vnet`) and return the raw
audio bytes.  The second component records whether a network call was
issued. -/
def generate_voice (s : SessionState) (vnet : String → String → List Nat)
    (voice_id text : String) : GenResult × Bool :=
  match s.generatedAudio with
  | some g => (GenResult.stored g, false)
  | none => (GenResult.fresh (vnet voice_id text), true)

/-! ## Claim C5 -/

/-- C5: for every session that already holds a translated text,
`translate_text` returns the stored value unchanged with no network
call; likewise, for every session that already holds generated audio,
`generate_voice` returns the stored value unchanged with no network
call. -/
theorem translate_and_generate_idempotent
    (s : SessionState) (tnet : List (String × String) → String)
    (vnet : String → String → List Nat)
    (src_text dst_lang voice_id text : String) (t : String) (g : GenRecord) :
    (s.translatedText = some t → translate_text s tnet src_text dst_lang = (t, false)) ∧
    (s.generatedAudio = some g → generate_voice s vnet voice_id text = (GenResult.stored g, false)) := by
  constructor
  · intro h
    simp [translate_text, h]
  · intro h
    simp [generate_voice, h]

/-- Witness for C5: a concrete session holding both a translated text and
a generated-audio record returns both stored values with no network
call. -/
theorem translate_and_generate_idempotent_witness :
    ({ uploadedFile := some "a.mp4", recognizedText := some "hi",
       translatedText := some "hola",
       generatedAudio := some ⟨[1, 2], "Alice", 1700000000⟩ } : SessionState).translatedText
        = some "hola" ∧
    (translate_text
      { uploadedFile := some "a.mp4", recognizedText := some "hi",
        translatedText := some "hola",
        generatedAudio := some ⟨[1, 2], "Alice", 1700000000⟩ }
      (fun _ => "t") "hi" "Spanish" = ("hola", false) ∧
    generate_voice
      { uploadedFile := some "a.mp4", recognizedText := some "hi",
        translatedText := some "hola",
        generatedAudio := some ⟨[1, 2], "Alice", 1700000000⟩ }
      (fun _ _ => [9]) "v1" "hola" = (GenResult.stored ⟨[1, 2], "Alice", 1700000000⟩, false)) := by
  refine ⟨rfl, ?_, ?_⟩
  · exact (translate_and_generate_idempotent _ (fun _ => "t") (fun _ _ => [9])
      "hi" "Spanish" "v1" "hola" "hola" ⟨[1, 2], "Alice", 1700000000⟩).1 rfl
  · exact (translate_and_generate_idempotent _ (fun _ => "t") (fun _ _ => [9])
      "hi" "Spanish" "v1" "hola" "hola" ⟨[1, 2], "Alice", 1700000000⟩).2 rfl

/-! ## Claim C1

`recognize_speech` (src/app.py lines 57-79).  Line 61 is a bare
`return "TEST"` placed before the idempotent short-circuit (lines
62-63), the 25 MB size gate (lines 65-68) and the transcription call
(lines 71-79), which are therefore dead code.  The claim describes the
dead code; the executed function returns `"TEST"` on every input. -/

/-- C1 (code divergence): evaluating `recognize_speech` as executed
against the unreachable lines 62-79 that the claim describes.  For a
session already holding the transcript `"hello"`, the executed code
returns `"TEST"` (not the stored transcript), while lines 62-79 would
return `"hello"`; for a fresh session and an audio buffer of
25 * 1024 * 1024 + 1 bytes, the executed code still returns `"TEST"`
with no size halt, while lines 62-79 would halt with the size error;
and for a fresh session with a buffer of exactly 25 * 1024 * 1024
bytes, lines 62-79 would call the service, but the executed code does
not (`networkCalled = false`). -/
theorem recognize_speech_always_returns_TEST :
    recognize_speech
        { uploadedFile := some "a.mp4", recognizedText := some "hello",
          translatedText := none, generatedAudio := none }
        (fun _ => "from-service") [1, 2, 3] = RecOutcome.result "TEST" false
    ∧ recognize_speech_after_line_61
        { uploadedFile := some "a.mp4", recognizedText := some "hello",
          translatedText := none, generatedAudio := none }
        (fun _ => "from-service") [1, 2, 3] = RecOutcome.result "hello" false
    ∧ "TEST" ≠ "hello"
    ∧ recognize_speech
        { uploadedFile := some "a.mp4", recognizedText := none,
          translatedText := none, generatedAudio := none }
        (fun _ => "from-service") (List.replicate (25 * 1024 * 1024 + 1) 0)
        = RecOutcome.result "TEST" false
    ∧ recognize_speech_after_line_61
        { uploadedFile := some "a.mp4", recognizedText := none,
          translatedText := none, generatedAudio := none }
        (fun _ => "from-service") (List.replicate (25 * 1024 * 1024 + 1) 0)
        = RecOutcome.sizeErrorHalt
    ∧ recognize_speech_after_line_61
        { uploadedFile := some "a.mp4", recognizedText := none,
          translatedText := none, generatedAudio := none }
        (fun _ => "from-service") (List.replicate (25 * 1024 * 1024) 0)
        = RecOutcome.result "from-service" true := by
  refine ⟨rfl, rfl, by decide, rfl, ?_, ?_⟩
  · simp only [recognize_speech_after_line_61, List.length_replicate]
    norm_num
  · simp only [recognize_speech_after_line_61, List.length_replicate]
    norm_num

/-! ## Claim C2: the retry decoration

Every wrapper is decorated (src/utils.py line 6, src/app.py lines 57,
82, 116, 141) with

  `@retry(stop=stop_after_attempt(RETRIES),
          wait=wait_exponential(multiplier=BACKOFF, min=DELAY),
          reraise=True, retry_error_callback=logger.error)`

from the third-party `tenacity` library (used unmodified; `RETRIES`,
`BACKOFF`, `DELAY` come from the settings module and are kept abstract
here).  Per tenacity's documented semantics, the underlying call is
attempted until it succeeds or the stop condition holds
(`stop_after_attempt(n)`: stop once the attempt number reaches `n`; the
first attempt always runs), and on exhaustion `retry_error_callback` —
here `logger.error` — is invoked once with the retry state and its
return value (`None`) is returned by the wrapped function *instead of
raising*; `reraise=True` only governs the no-callback case, so it is
preempted and no error reaches the caller. -/

/-- Outcome of a retried call: success of the attempt numbered `k` with
its value; an error raised to the caller; or exhaustion, where the error
callback (`logger.error`) has been invoked and its `None` result is
returned to the caller in place of a raise. -/
inductive RetryOutcome (ε α : Type) where
  | ok (k : Nat) (a : α)
  | raised (e : ε)
  | swallowedNone (e : ε)
deriving DecidableEq, Repr

/-- The attempt loop of the tenacity decoration used throughout the
source: `f k` is the underlying call on attempt number `k`; `fuel`
counts the attempts still allowed by `stop_after_attempt`.  The second
component counts invocations of the error callback (`logger.error`).
With `fuel ≤ 1` a failed attempt is the last one: the callback runs once
and `None` is returned (the callback preempts `reraise=True`). -/
def retryGo (f : Nat → Except ε α) : Nat → Nat → RetryOutcome ε α × Nat
  | k, 0 =>
    (match f k with
     | Except.ok a => (RetryOutcome.ok k a, 0)
     | Except.error e => (RetryOutcome.swallowedNone e, 1))
  | k, 1 =>
    (match f k with
     | Except.ok a => (RetryOutcome.ok k a, 0)
     | Except.error e => (RetryOutcome.swallowedNone e, 1))
  | k, fuel + 2 =>
    (match f k with
     | Except.ok a => (RetryOutcome.ok k a, 0)
     | Except.error _ => retryGo f (k + 1) (fuel + 1))

/-- A call decorated with `@retry(stop=stop_after_attempt(retries),
reraise=True, retry_error_callback=logger.error)`: run the attempt loop
starting from attempt 1. -/
def tenacityRun (retries : Nat) (f : Nat → Except ε α) : RetryOutcome ε α × Nat :=
  retryGo f 1 retries

theorem retryGo_const_error (e : ε) :
    ∀ fuel k, retryGo (α := α) (fun _ => Except.error e) k fuel
      = (RetryOutcome.swallowedNone e, 1) := by
  intro fuel
  induction fuel using Nat.strong_induction_on with
  | _ fuel ih =>
    match fuel with
    | 0 => intro k; simp [retryGo]
    | 1 => intro k; simp [retryGo]
    | n + 2 =>
      intro k
      rw [retryGo]
      exact ih (n + 1) (by omega) (k + 1)

/-- C2 (code divergence): with the decoration parameters used in the
source, an underlying call that raises on every attempt never re-raises
to the caller — for every error `e` and every `RETRIES`, the wrapped
call ends in `swallowedNone e` (the `logger.error` callback is invoked
exactly once and its `None` result is returned), not in `raised e` as
the claim states; while the success half of the claim does hold: a call
failing on attempt 1 and succeeding on attempt 2 under `RETRIES = 3`
returns the attempt-2 result with no further attempts and no logging. -/
theorem retry_exhaustion_swallows_error :
    (∀ (e : String) (retries : Nat),
        tenacityRun (α := Nat) retries (fun _ => Except.error e)
          = (RetryOutcome.swallowedNone e, 1)) ∧
    (∀ (e : String) (retries : Nat),
        tenacityRun (α := Nat) retries (fun _ => Except.error e)
          ≠ (RetryOutcome.raised e, 1)) ∧
    tenacityRun 3 (fun k => if k = 1 then Except.error "boom" else Except.ok 42)
      = (RetryOutcome.ok 2 42, 0) := by
  refine ⟨fun e retries => retryGo_const_error e retries 1, fun e retries => ?_, by decide⟩
  have h : tenacityRun (α := Nat) retries (fun _ => Except.error e)
      = (RetryOutcome.swallowedNone e, 1) := retryGo_const_error e retries 1
  rw [h]
  simp

/-! ## Session-state transitions of `main` (src/app.py)

The script re-executes top-to-bottom on every interaction; these
definitions embed the session-state transitions of the relevant
segments.  Form values (`uploaded_file.name`, `src_text`, `dst_text`,
`voice_name`) and the oracles are explicit inputs of a render pass. -/

/-- Lines 214-224: with no upload, reset downstream state (then
`st.stop`); otherwise store the name if `UPLOADED_FILE` is absent
(lines 219-220), then, if the stored name is present and differs from
the current upload's name, run `reset_session_state` (lines 222-224). -/
def upload_check (s : SessionState) (uploadedName : Option String) : SessionState :=
  match uploadedName with
  | none => reset_session_state s
  | some nm =>
    let s1 := if s.uploadedFile = none then { s with uploadedFile := some nm } else s
    if s1.uploadedFile.isSome ∧ s1.uploadedFile ≠ some nm then reset_session_state s1 else s1

/-- Lines 279-285 (reached only with `RECOGNIZED_TEXT` present): if the
form's `src_text` differs from the stored transcript, store the edit and
delete `TRANSLATED_TEXT` and `GENERATED_AUDIO`. -/
def transcript_edit (s : SessionState) (src_text : String) : SessionState :=
  if some src_text ≠ s.recognizedText then
    { s with recognizedText := some src_text, translatedText := none, generatedAudio := none }
  else s

/-- Lines 304-308 (reached only with `TRANSLATED_TEXT` present): if the
form's `dst_text` differs from the stored translation, store the edit
and delete `GENERATED_AUDIO`. -/
def translation_edit (s : SessionState) (dst_text : String) : SessionState :=
  if some dst_text ≠ s.translatedText then
    { s with translatedText := some dst_text, generatedAudio := none }
  else s

/-! ## Claim C3 -/

/-- C3 (code divergence): from a session with all four artifacts
populated, a changed upload name runs `reset_session_state`, which
clears the transcript, the translation and the generated audio but
leaves `UPLOADED_FILE` holding the previous file's name — it is neither
cleared nor updated to the new name, so the claimed "clears all four"
fails; the two edit transitions behave exactly as claimed (a transcript
edit stores the edit and clears translation and generated audio, leaving
the upload identity intact; a translation edit stores the edit and
clears only the generated audio). -/
theorem upload_change_leaves_stale_upload_identity :
    upload_check
        { uploadedFile := some "a.mp4", recognizedText := some "hello",
          translatedText := some "hola", generatedAudio := some ⟨[7], "Alice", 1700000000⟩ }
        (some "b.mp4")
      = { uploadedFile := some "a.mp4", recognizedText := none,
          translatedText := none, generatedAudio := none }
    ∧ (upload_check
        { uploadedFile := some "a.mp4", recognizedText := some "hello",
          translatedText := some "hola", generatedAudio := some ⟨[7], "Alice", 1700000000⟩ }
        (some "b.mp4")).uploadedFile ≠ none
    ∧ (upload_check
        { uploadedFile := some "a.mp4", recognizedText := some "hello",
          translatedText := some "hola", generatedAudio := some ⟨[7], "Alice", 1700000000⟩ }
        (some "b.mp4")).uploadedFile ≠ some "b.mp4"
    ∧ transcript_edit
        { uploadedFile := some "a.mp4", recognizedText := some "hello",
          translatedText := some "hola", generatedAudio := some ⟨[7], "Alice", 1700000000⟩ }
        "edited transcript"
      = { uploadedFile := some "a.mp4", recognizedText := some "edited transcript",
          translatedText := none, generatedAudio := none }
    ∧ translation_edit
        { uploadedFile := some "a.mp4", recognizedText := some "hello",
          translatedText := some "hola", generatedAudio := some ⟨[7], "Alice", 1700000000⟩ }
        "edited translation"
      = { uploadedFile := some "a.mp4", recognizedText := some "hello",
          translatedText := some "edited translation", generatedAudio := none } := by
  refine ⟨by decide, by decide, by decide, by decide, by decide⟩

/-! ## Claim C4: the step-5 render segment (src/app.py lines 287-318)

One render pass from the translation call through the synthesis store:

* line 288: `translated_text = await translate_text(src_text, dst_lang)`
  — returns the *currently stored* translation when one exists;
* lines 290-291: store the translation if absent;
* lines 301-302: halt when no generated audio exists and the form was
  not submitted;
* lines 304-308: `translation_edit` on the form's `dst_text`;
* line 311: `generate_voice(voices[voice_name]["voice_id"],
  translated_text)` — note the argument is the local `translated_text`
  from line 288, not `dst_text` and not the now-stored edited value;
* lines 313-318: if no `GENERATED_AUDIO` is stored, store
  `{audio, name: voice_name, timestamp: UTC_TIMESTAMP}`. -/

/-- Result of the step-5 segment of a render pass: the final session
state, the `(voice_id, text)` argument pair of the text-to-speech
network call when one was issued, and whether the pass halted at lines
301-302. -/
structure Step5Outcome where
  state : SessionState
  genCall : Option (String × String)
  halted : Bool
deriving DecidableEq, Repr

/-- The step-5 render segment, src/app.py lines 287-318 (see the section
comment).  `utc` is the process-start constant `UTC_TIMESTAMP`
(line 15), `voice_id` is `voices[voice_name]["voice_id"]`. -/
def step5_pass (s0 : SessionState) (tnet : List (String × String) → String)
    (vnet : String → String → List Nat) (src_text dst_lang dst_text : String)
    (voice_id voice_name : String) (submit_voice_generation : Bool)
    (utc : Nat) : Step5Outcome :=
  let translated_text := (translate_text s0 tnet src_text dst_lang).1
  let s1 := if s0.translatedText = none
            then { s0 with translatedText := some translated_text } else s0
  if s1.generatedAudio = none ∧ ¬ submit_voice_generation then
    { state := s1, genCall := none, halted := true }
  else
    let s2 := translation_edit s1 dst_text
    let g := generate_voice s2 vnet voice_id translated_text
    let s3 := match s2.generatedAudio, g.1 with
      | none, GenResult.fresh bs =>
          { s2 with generatedAudio := some ⟨bs, voice_name, utc⟩ }
      | _, _ => s2
    { state := s3,
      genCall := if g.2 then some (voice_id, translated_text) else none,
      halted := false }

/-- C4 (code divergence): with stored translation `"old"` edited in the
form to `"new"` and submitted, the pass updates the stored translation
to `"new"` and invalidates the previously generated audio (as the claim
states), and the stored result record carries the chosen voice's display
name and the process-start timestamp (as the claim states) — but the
synthesis network call is issued with the *pre-edit* text `"old"` (the
local `translated_text` of line 288), not with the current edited
translated text `"new"`, so the synthesized audio is the old text's
audio. -/
theorem step5_synthesizes_stale_translation :
    step5_pass
        { uploadedFile := some "a.mp4", recognizedText := some "hello",
          translatedText := some "old", generatedAudio := some ⟨[9], "Bob", 5⟩ }
        (fun _ => "unused") (fun _ t => if t = "new" then [1] else [2])
        "hello" "Spanish" "new" "v1" "Alice" true 1700000000
      = { state := { uploadedFile := some "a.mp4", recognizedText := some "hello",
                     translatedText := some "new",
                     generatedAudio := some ⟨[2], "Alice", 1700000000⟩ },
          genCall := some ("v1", "old"), halted := false }
    ∧ ("old" : String) ≠ "new" := by
  refine ⟨by decide, by decide⟩

/-! ## The generic API client's response handling (src/utils.py lines 26-42)

`call_api` issues the request and handles the response inside one
retried attempt.  The response object is embedded as a record carrying
what the aiohttp accessors used by the code would return: `resp.status`,
the header mapping, `await resp.text()`, `await resp.content.read()`,
the line iteration of `resp.content` (already UTF-8-decoded), and
`await resp.json()` (an abstract JSON value). -/

/-- A JSON value, the result of `resp.json()`. -/
inductive JsonVal where
  | jnull
  | jbool (b : Bool)
  | jnum (n : Int)
  | jstr (s : String)
  | jarr (xs : List JsonVal)
  | jobj (fields : List (String × JsonVal))
deriving Repr

/-- Field lookup on a JSON object (`d["key"]`); `none` models `KeyError`
or a non-object value. -/
def jsonGet (j : JsonVal) (k : String) : Option JsonVal :=
  match j with
  | JsonVal.jobj fields => (fields.find? (fun kv => kv.1 = k)).map (·.2)
  | _ => none

/-- An HTTP response as observed through the accessors used by the code. -/
structure HttpResponse where
  status : Nat
  headers : List (String × String)
  bodyText : String
  bodyBytes : List Nat
  bodyLines : List String
  bodyJson : JsonVal

/-- `resp.headers[k]` as an option (`none` models the `KeyError` raised
by an absent header). -/
def headerGet (resp : HttpResponse) (k : String) : Option String :=
  (resp.headers.find? (fun kv => kv.1 = k)).map (·.2)

/-- The f-string of src/utils.py line 33 and src/app.py line 137:
`f"API call failed with status {status}: {text}"`. -/
def apiFailMessage (status : Nat) (bodyText : String) : String :=
  "API call failed with status " ++ Nat.repr status ++ ": " ++ bodyText

/-- One value yielded by `call_api`. -/
inductive ApiYield where
  | jsonVal (j : JsonVal)
  | rawBytes (bs : List Nat)
  | textLine (s : String)
deriving Repr

/-- Outcome of the response handling of one `call_api` attempt: the
yielded values; a raised `RuntimeError` with its message; or the
`KeyError` from an absent header. -/
inductive ApiOutcome where
  | yields (vals : List ApiYield)
  | raised (msg : String)
  | keyError (key : String)
deriving Repr

/-- The response handling of `call_api` (src/utils.py lines 32-42): a
non-200 status raises `RuntimeError` with the status and body text; in
streaming mode each response line is yielded UTF-8-decoded and stripped,
in arrival order; otherwise `resp.headers["Content-Type"]` is read
unconditionally (absent header: `KeyError`) and compared by exact string
equality with `"application/json"` — equal yields the parsed JSON body,
anything else yields the raw response bytes. -/
def call_api_response (resp : HttpResponse) (stream : Bool) : ApiOutcome :=
  if resp.status ≠ 200 then
    ApiOutcome.raised (apiFailMessage resp.status resp.bodyText)
  else if stream then
    ApiOutcome.yields (resp.bodyLines.map (fun line => ApiYield.textLine (pyStrip line)))
  else
    match headerGet resp "Content-Type" with
    | none => ApiOutcome.keyError "Content-Type"
    | some ct =>
      if ct = "application/json" then ApiOutcome.yields [ApiYield.jsonVal resp.bodyJson]
      else ApiOutcome.yields [ApiYield.rawBytes resp.bodyBytes]

/-- `create_voice_clone`'s direct-HTTP response handling (src/app.py
lines 135-138): a non-200 status raises the same `RuntimeError`;
otherwise the new voice identifier is read from the JSON body
(`response.json()["voice_id"]`, `KeyError` when absent). -/
def create_voice_clone_resp (resp : HttpResponse) : Except String JsonVal :=
  if resp.status ≠ 200 then
    Except.error (apiFailMessage resp.status resp.bodyText)
  else
    match jsonGet resp.bodyJson "voice_id" with
    | some v => Except.ok v
    | none => Except.error "KeyError: voice_id"

/-- `sub` occurs as a contiguous substring of `s`. -/
def containsStr (s sub : String) : Prop := ∃ p q, s = p ++ sub ++ q

theorem apiFailMessage_contains_status (status : Nat) (bodyText : String) :
    containsStr (apiFailMessage status bodyText) (Nat.repr status) := by
  refine ⟨"API call failed with status ", ": " ++ bodyText, ?_⟩
  simp only [apiFailMessage, String.append_assoc]

theorem apiFailMessage_contains_body (status : Nat) (bodyText : String) :
    containsStr (apiFailMessage status bodyText) bodyText := by
  refine ⟨"API call failed with status " ++ Nat.repr status ++ ": ", "", ?_⟩
  simp only [apiFailMessage, String.append_assoc, String.append_empty]

/-! ## Claim C6 -/

/-- C6: for every response whose status is not exactly 200, both the
generic API client (in either mode) and the direct-HTTP voice-clone
wrapper fail the attempt with the "API call failed" error, whose message
contains the decimal status code and the response body text. -/
theorem non_200_fails_with_status_and_body (resp : HttpResponse) (stream : Bool)
    (h : resp.status ≠ 200) :
    call_api_response resp stream = ApiOutcome.raised (apiFailMessage resp.status resp.bodyText)
    ∧ create_voice_clone_resp resp = Except.error (apiFailMessage resp.status resp.bodyText)
    ∧ containsStr (apiFailMessage resp.status resp.bodyText) (Nat.repr resp.status)
    ∧ containsStr (apiFailMessage resp.status resp.bodyText) resp.bodyText := by
  refine ⟨?_, ?_, apiFailMessage_contains_status _ _, apiFailMessage_contains_body _ _⟩
  · simp [call_api_response, h]
  · simp [create_voice_clone_resp, h]

/-- Witness for C6: a simulated status-500 response with body
`"server error"` fails with a message containing both `"500"` and
`"server error"` — and that message is the concrete string
`"API call failed with status 500: server error"`. -/
theorem non_200_fails_with_status_and_body_witness :
    (call_api_response
        { status := 500, headers := [], bodyText := "server error",
          bodyBytes := [], bodyLines := [], bodyJson := JsonVal.jnull } false
      = ApiOutcome.raised (apiFailMessage 500 "server error")
    ∧ create_voice_clone_resp
        { status := 500, headers := [], bodyText := "server error",
          bodyBytes := [], bodyLines := [], bodyJson := JsonVal.jnull }
      = Except.error (apiFailMessage 500 "server error")
    ∧ containsStr (apiFailMessage 500 "server error") (Nat.repr 500)
    ∧ containsStr (apiFailMessage 500 "server error") "server error")
    ∧ apiFailMessage 500 "server error" = "API call failed with status 500: server error" := by
  refine ⟨non_200_fails_with_status_and_body _ false (by decide), by decide⟩

/-! ## Claim C7 -/

/-- C7: for every status-200 response, streaming mode yields one value
per response line — each the line decoded as UTF-8 with surrounding
whitespace stripped, in arrival order, so n lines yield exactly n
values; non-streaming mode yields exactly one value: the parsed JSON
body when the Content-Type is `application/json`, else the raw response
bytes. -/
theorem call_api_success_yields (resp : HttpResponse) (h200 : resp.status = 200) :
    (call_api_response resp true
        = ApiOutcome.yields (resp.bodyLines.map (fun line => ApiYield.textLine (pyStrip line)))
      ∧ (resp.bodyLines.map (fun line => ApiYield.textLine (pyStrip line))).length
          = resp.bodyLines.length)
    ∧ (headerGet resp "Content-Type" = some "application/json" →
        call_api_response resp false = ApiOutcome.yields [ApiYield.jsonVal resp.bodyJson])
    ∧ (∀ ct, headerGet resp "Content-Type" = some ct → ct ≠ "application/json" →
        call_api_response resp false = ApiOutcome.yields [ApiYield.rawBytes resp.bodyBytes]) := by
  refine ⟨⟨?_, by simp⟩, ?_, ?_⟩
  · simp [call_api_response, h200]
  · intro hct
    simp [call_api_response, h200, hct]
  · intro ct hct hne
    simp [call_api_response, h200, hct, hne]

/-- Witness for C7: a simulated 200 response with three newline-delimited
chunks yields exactly three values, each the corresponding line with
surrounding whitespace removed, in arrival order; a 200 response with
Content-Type `application/json` yields its parsed body; one with
Content-Type `audio/mpeg` yields its raw bytes. -/
theorem call_api_success_yields_witness :
    (call_api_response
        { status := 200, headers := [("Content-Type", "text/event-stream")],
          bodyText := "", bodyBytes := [],
          bodyLines := [" first \n", "second\n", "\tthird"], bodyJson := JsonVal.jnull } true
      = ApiOutcome.yields [ApiYield.textLine "first", ApiYield.textLine "second",
          ApiYield.textLine "third"]
    ∧ ([" first \n", "second\n", "\tthird"].map
          (fun line => ApiYield.textLine (pyStrip line))).length
        = ([" first \n", "second\n", "\tthird"] : List String).length)
    ∧ call_api_response
        { status := 200, headers := [("Content-Type", "application/json")],
          bodyText := "", bodyBytes := [7, 8], bodyLines := [],
          bodyJson := JsonVal.jobj [("voices", JsonVal.jarr [])] } false
      = ApiOutcome.yields [ApiYield.jsonVal (JsonVal.jobj [("voices", JsonVal.jarr [])])]
    ∧ call_api_response
        { status := 200, headers := [("Content-Type", "audio/mpeg")],
          bodyText := "", bodyBytes := [7, 8], bodyLines := [],
          bodyJson := JsonVal.jnull } false
      = ApiOutcome.yields [ApiYield.rawBytes [7, 8]] := by
  refine ⟨⟨?_, ?_⟩, ?_, ?_⟩
  · have h := (call_api_success_yields
      { status := 200, headers := [("Content-Type", "text/event-stream")],
        bodyText := "", bodyBytes := [],
        bodyLines := [" first \n", "second\n", "\tthird"], bodyJson := JsonVal.jnull }
      rfl).1.1
    rw [h]
    rfl
  · rfl
  · exact (call_api_success_yields
      { status := 200, headers := [("Content-Type", "application/json")],
        bodyText := "", bodyBytes := [7, 8], bodyLines := [],
        bodyJson := JsonVal.jobj [("voices", JsonVal.jarr [])] } rfl).2.1 rfl
  · exact (call_api_success_yields
      { status := 200, headers := [("Content-Type", "audio/mpeg")],
        bodyText := "", bodyBytes := [7, 8], bodyLines := [],
        bodyJson := JsonVal.jnull } rfl).2.2 "audio/mpeg" rfl (by decide)

/-! ## Claim C10 -/

/-- C10: in non-streaming mode, for every status-200 response the choice
between parsed JSON and raw bytes is made by exact string equality on
the Content-Type header value, which is read unconditionally: a
Content-Type carrying parameters (e.g. with a charset suffix) takes the
raw-bytes branch, and an absent Content-Type header fails with a
missing-key error instead of yielding any value. -/
theorem content_type_exact_match_and_mandatory (resp : HttpResponse)
    (h200 : resp.status = 200) :
    (∀ ct, headerGet resp "Content-Type" = some ct → ct ≠ "application/json" →
        call_api_response resp false = ApiOutcome.yields [ApiYield.rawBytes resp.bodyBytes])
    ∧ (headerGet resp "Content-Type" = some "application/json; charset=utf-8" →
        call_api_response resp false = ApiOutcome.yields [ApiYield.rawBytes resp.bodyBytes])
    ∧ (headerGet resp "Content-Type" = none →
        call_api_response resp false = ApiOutcome.keyError "Content-Type") := by
  refine ⟨?_, ?_, ?_⟩
  · intro ct hct hne
    simp [call_api_response, h200, hct, hne]
  · intro hct
    simp [call_api_response, h200, hct]
  · intro hct
    simp [call_api_response, h200, hct]

/-- Witness for C10: a 200 response whose Content-Type is
`application/json; charset=utf-8` yields the raw bytes (not parsed
JSON), and a 200 response with no Content-Type header at all ends in the
missing-key error. -/
theorem content_type_exact_match_and_mandatory_witness :
    call_api_response
        { status := 200, headers := [("Content-Type", "application/json; charset=utf-8")],
          bodyText := "", bodyBytes := [3, 4], bodyLines := [],
          bodyJson := JsonVal.jobj [] } false
      = ApiOutcome.yields [ApiYield.rawBytes [3, 4]]
    ∧ call_api_response
        { status := 200, headers := [("X-Other", "1")], bodyText := "",
          bodyBytes := [3, 4], bodyLines := [], bodyJson := JsonVal.jobj [] } false
      = ApiOutcome.keyError "Content-Type" := by
  constructor
  · exact (content_type_exact_match_and_mandatory
      { status := 200, headers := [("Content-Type", "application/json; charset=utf-8")],
        bodyText := "", bodyBytes := [3, 4], bodyLines := [],
        bodyJson := JsonVal.jobj [] } rfl).2.1 rfl
  · exact (content_type_exact_match_and_mandatory
      { status := 200, headers := [("X-Other", "1")], bodyText := "",
        bodyBytes := [3, 4], bodyLines := [], bodyJson := JsonVal.jobj [] } rfl).2.2 rfl

/-! ## Python dictionaries as association lists

`build_voices_dataframe` (src/app.py lines 45-54) manipulates Python
dicts.  A dict is an association list with unique keys kept in insertion
order; the operations below mirror Python's `d[k]`, `d[k] = v`,
`d.pop(k)` / `del d[k]`, and `d.update(e)`. -/

/-- A Python value as far as the voice records need: strings, numbers,
and nested dicts. -/
inductive PyVal where
  | pstr (s : String)
  | pnum (n : Int)
  | pdict (fields : List (String × PyVal))
deriving Repr

/-- `d[k]` as an option (`none` models `KeyError`). -/
def dget (d : List (String × α)) (k : String) : Option α :=
  match d with
  | [] => none
  | kv :: rest => if kv.1 = k then some kv.2 else dget rest k

/-- `d.pop(k)` / `del d[k]`: remove the key. -/
def dremove (d : List (String × α)) (k : String) : List (String × α) :=
  match d with
  | [] => []
  | kv :: rest => if kv.1 = k then dremove rest k else kv :: dremove rest k

/-- `d[k] = v`: replace the value in place if the key is present,
else append the new binding (insertion order). -/
def dset (d : List (String × α)) (k : String) (v : α) : List (String × α) :=
  match d with
  | [] => [(k, v)]
  | kv :: rest => if kv.1 = k then (k, v) :: rest else kv :: dset rest k v

/-- `d.update(e)`: assign every binding of `e` into `d`, in order. -/
def dupdate (d e : List (String × α)) : List (String × α) :=
  e.foldl (fun acc kv => dset acc kv.1 kv.2) d

theorem dget_dremove_self (d : List (String × α)) (k : String) :
    dget (dremove d k) k = none := by
  induction d with
  | nil => rfl
  | cons kv rest ih =>
    by_cases h : kv.1 = k <;> simp [dremove, dget, h, ih]

theorem dget_dremove_ne (d : List (String × α)) (k k' : String) (h : k ≠ k') :
    dget (dremove d k') k = dget d k := by
  induction d with
  | nil => rfl
  | cons kv rest ih =>
    by_cases h1 : kv.1 = k'
    · have hk : ¬ kv.1 = k := by rw [h1]; exact fun hh => h hh.symm
      have hk' : ¬ k' = k := fun hh => h hh.symm
      simp [dremove, dget, h1, hk, hk', ih]
    · simp only [dremove, if_neg h1, dget]
      by_cases h2 : kv.1 = k <;> simp [h2, ih]

theorem dget_dset_self (d : List (String × α)) (k : String) (v : α) :
    dget (dset d k v) k = some v := by
  induction d with
  | nil => simp [dset, dget]
  | cons kv rest ih =>
    by_cases h : kv.1 = k <;> simp [dset, dget, h, ih]

theorem dget_dset_ne (d : List (String × α)) (k k' : String) (v : α) (h : k ≠ k') :
    dget (dset d k' v) k = dget d k := by
  induction d with
  | nil =>
    have : ¬ k' = k := fun hh => h hh.symm
    simp [dset, dget, this]
  | cons kv rest ih =>
    by_cases h1 : kv.1 = k'
    · have : ¬ k' = k := fun hh => h hh.symm
      simp [dset, dget, h1, this, ih]
    · simp only [dset, if_neg h1, dget]
      by_cases h2 : kv.1 = k <;> simp [h2, ih]

theorem dget_dupdate_notin (d e : List (String × α)) (k : String)
    (h : k ∉ e.map Prod.fst) :
    dget (dupdate d e) k = dget d k := by
  induction e generalizing d with
  | nil => rfl
  | cons kv rest ih =>
    simp only [List.map_cons, List.mem_cons] at h
    push_neg at h
    show dget (dupdate (dset d kv.1 kv.2) rest) k = dget d k
    rw [ih _ h.2, dget_dset_ne _ _ _ _ h.1]

theorem dget_dupdate_mem (d e : List (String × α)) (k : String) (v : α)
    (hnd : (e.map Prod.fst).Nodup) (hmem : (k, v) ∈ e) :
    dget (dupdate d e) k = some v := by
  induction e generalizing d with
  | nil => cases hmem
  | cons kv rest ih =>
    simp only [List.map_cons, List.nodup_cons] at hnd
    rcases List.mem_cons.mp hmem with heq | htail
    · subst heq
      show dget (dupdate (dset d k v) rest) k = some v
      rw [dget_dupdate_notin _ _ _ hnd.1, dget_dset_self]
    · exact ih _ hnd.2 htail

theorem dget_dupdate_isSome (d e : List (String × α)) (k : String)
    (h : (dget d k).isSome) : (dget (dupdate d e) k).isSome := by
  induction e generalizing d with
  | nil => exact h
  | cons kv rest ih =>
    show (dget (dupdate (dset d kv.1 kv.2) rest) k).isSome
    refine ih _ ?_
    by_cases hk : k = kv.1
    · subst hk; rw [dget_dset_self]; rfl
    · rw [dget_dset_ne _ _ _ _ hk]; exact h

theorem dget_dremove_isSome (d : List (String × α)) (k k' : String) (h : k ≠ k')
    (hs : (dget d k).isSome) : (dget (dremove d k') k).isSome := by
  rw [dget_dremove_ne _ _ _ h]; exact hs

/-! ## `build_voices_dataframe` (src/app.py lines 45-54) -/

/-- The in-place mutation of one voice record inside the loop of
lines 51-53: `voice.update(voice.pop("labels"))` — pop the `labels`
sub-dict and assign its bindings at top level — then
`voice.pop("fine_tuning")`.  `none` models the `KeyError` from a
missing `labels` or `fine_tuning` key (or `labels` not being a dict). -/
def liftVoice (v : List (String × PyVal)) : Option (List (String × PyVal)) :=
  match dget v "labels" with
  | some (PyVal.pdict lv) =>
    let v1 := dupdate (dremove v "labels") lv
    (match dget v1 "fine_tuning" with
     | some _ => some (dremove v1 "fine_tuning")
     | none => none)
  | _ => none

/-- The loop of lines 51-53 over every record of the (shallow-copied)
mapping: each record object is mutated in place; the outer mapping keeps
its keys and order. -/
def liftAllVoices :
    List (String × List (String × PyVal)) → Option (List (String × List (String × PyVal)))
  | [] => some []
  | (nm, rec) :: rest =>
    match liftVoice rec, liftAllVoices rest with
    | some r, some rs => some ((nm, r) :: rs)
    | _, _ => none

/-- The column selection of line 54:
`[["name", "category", "age", "gender", "accent", "description", "use case"]]`
followed by `.set_index("name")`, which leaves exactly these columns. -/
def voiceColumns : List String :=
  ["category", "age", "gender", "accent", "description", "use case"]

/-- The displayed table: the `name` column as index, the six selected
columns in order, and one row of cells per record (`none` models a
missing cell). -/
structure VoiceTable where
  tindex : List (Option PyVal)
  tcolumns : List String
  trows : List (List (Option PyVal))
deriving Repr

/-- `build_voices_dataframe` (src/app.py lines 45-54): shallow-copy the
mapping, mutate every record in place (lift `labels`, drop
`fine_tuning`), and assemble the records into a table indexed by voice
name and restricted to `voiceColumns`.  Returns the record objects as
mutated (visible through the input mapping, which shares them) together
with the table; `none` models a raised `KeyError`. -/
def build_voices_dataframe (voices : List (String × List (String × PyVal))) :
    Option (List (String × List (String × PyVal)) × VoiceTable) :=
  match liftAllVoices voices with
  | none => none
  | some recs =>
    some (recs,
      { tindex := recs.map (fun kv => dget kv.2 "name"),
        tcolumns := voiceColumns,
        trows := recs.map (fun kv => voiceColumns.map (fun c => dget kv.2 c)) })

/-- The `labels` sub-dict of a raw voice record (empty if absent or not
a dict). -/
def labelsOf (rec : List (String × PyVal)) : List (String × PyVal) :=
  match dget rec "labels" with
  | some (PyVal.pdict lv) => lv
  | _ => []

/-- Whether the record's `labels` key holds a dict. -/
def hasDictLabels (rec : List (String × PyVal)) : Bool :=
  match dget rec "labels" with
  | some (PyVal.pdict _) => true
  | _ => false

/-- Precondition on a raw voice record for the lift of lines 51-53 to
succeed cleanly: `labels` holds a sub-dict with unique keys not
shadowing the key `labels` itself, and a `fine_tuning` key is present. -/
def LiftPre (rec : List (String × PyVal)) : Prop :=
  hasDictLabels rec = true
  ∧ ((labelsOf rec).map Prod.fst).Nodup
  ∧ "labels" ∉ (labelsOf rec).map Prod.fst
  ∧ (dget rec "fine_tuning").isSome = true

instance (rec : List (String × PyVal)) : Decidable (LiftPre rec) := by
  unfold LiftPre
  infer_instance

theorem liftVoice_spec (rec : List (String × PyVal)) (h : LiftPre rec) :
    ∃ r, liftVoice rec = some r
      ∧ dget r "labels" = none
      ∧ dget r "fine_tuning" = none
      ∧ ∀ k v, (k, v) ∈ labelsOf rec → k ≠ "fine_tuning" → dget r k = some v := by
  obtain ⟨hdict, hnd, hnl, hft⟩ := h
  unfold hasDictLabels at hdict
  unfold labelsOf at hnd hnl ⊢
  cases hL : dget rec "labels" with
  | none => rw [hL] at hdict; cases hdict
  | some pv =>
    cases pv with
    | pstr s => rw [hL] at hdict; cases hdict
    | pnum n => rw [hL] at hdict; cases hdict
    | pdict lv =>
      rw [hL] at hnd hnl
      have hft1 : (dget (dupdate (dremove rec "labels") lv) "fine_tuning").isSome := by
        refine dget_dupdate_isSome _ _ _ ?_
        refine dget_dremove_isSome _ _ _ (by decide) hft
      obtain ⟨ftv, hftv⟩ := Option.isSome_iff_exists.mp hft1
      refine ⟨dremove (dupdate (dremove rec "labels") lv) "fine_tuning", ?_, ?_, ?_, ?_⟩
      · simp only [liftVoice, hL, hftv]
      · rw [dget_dremove_ne _ _ _ (by decide),
          dget_dupdate_notin _ _ _ hnl, dget_dremove_self]
      · exact dget_dremove_self _ _
      · intro k v hmem hne
        rw [dget_dremove_ne _ _ _ hne, dget_dupdate_mem _ _ _ _ hnd hmem]

theorem liftAllVoices_spec (voices : List (String × List (String × PyVal)))
    (h : ∀ kv ∈ voices, LiftPre kv.2) :
    ∃ recs, liftAllVoices voices = some recs
      ∧ recs.map Prod.fst = voices.map Prod.fst
      ∧ List.Forall₂ (fun (ikv okv : String × List (String × PyVal)) =>
            okv.1 = ikv.1
            ∧ dget okv.2 "labels" = none
            ∧ dget okv.2 "fine_tuning" = none
            ∧ ∀ k v, (k, v) ∈ labelsOf ikv.2 → k ≠ "fine_tuning" → dget okv.2 k = some v)
          voices recs := by
  induction voices with
  | nil => exact ⟨[], rfl, rfl, List.Forall₂.nil⟩
  | cons kv rest ih =>
    obtain ⟨r, hr, hrl, hrf, hrk⟩ := liftVoice_spec kv.2 (h kv (List.mem_cons_self kv rest))
    obtain ⟨rs, hrs, hmap, hfa⟩ := ih (fun x hx => h x (List.mem_cons_of_mem kv hx))
    refine ⟨(kv.1, r) :: rs, ?_, ?_, ?_⟩
    · show liftAllVoices ((kv.1, kv.2) :: rest) = _
      unfold liftAllVoices
      rw [hr, hrs]
    · simp [hmap]
    · exact List.Forall₂.cons ⟨rfl, hrl, hrf, hrk⟩ hfa

/-! ## Claim C8 -/

/-- C8: for every input mapping of liftable voice records,
`build_voices_dataframe` succeeds; the table has exactly the columns
category, age, gender, accent, description, use case, in that order,
with no `labels` or `fine_tuning` column, indexed by voice name; the
outer mapping keeps its keys and record count; and each record object
has the contents of its `labels` sub-dict lifted to top level with the
`labels` and `fine_tuning` keys removed in place. -/
theorem build_voices_dataframe_shape (voices : List (String × List (String × PyVal)))
    (h : ∀ kv ∈ voices, LiftPre kv.2) :
    ∃ recs tbl, build_voices_dataframe voices = some (recs, tbl)
      ∧ tbl.tcolumns = ["category", "age", "gender", "accent", "description", "use case"]
      ∧ "labels" ∉ tbl.tcolumns
      ∧ "fine_tuning" ∉ tbl.tcolumns
      ∧ tbl.tindex = recs.map (fun kv => dget kv.2 "name")
      ∧ recs.map Prod.fst = voices.map Prod.fst
      ∧ recs.length = voices.length
      ∧ List.Forall₂ (fun (ikv okv : String × List (String × PyVal)) =>
            okv.1 = ikv.1
            ∧ dget okv.2 "labels" = none
            ∧ dget okv.2 "fine_tuning" = none
            ∧ ∀ k v, (k, v) ∈ labelsOf ikv.2 → k ≠ "fine_tuning" → dget okv.2 k = some v)
          voices recs := by
  obtain ⟨recs, hrecs, hmap, hfa⟩ := liftAllVoices_spec voices h
  refine ⟨recs,
    { tindex := recs.map (fun kv => dget kv.2 "name"),
      tcolumns := voiceColumns,
      trows := recs.map (fun kv => voiceColumns.map (fun c => dget kv.2 c)) },
    ?_, rfl, by simp [voiceColumns], by simp [voiceColumns], rfl, hmap,
    hfa.length_eq.symm, hfa⟩
  unfold build_voices_dataframe
  rw [hrecs]

/-- Witness for C8: a concrete two-voice catalog (each record with a
`labels` sub-dict carrying age, gender, accent, use case, and a
`fine_tuning` key) satisfies the precondition, so the table has exactly
the six claimed columns, both records survive in count and key, and the
lift removes `labels`/`fine_tuning` from each record object. -/
theorem build_voices_dataframe_shape_witness :
    (∀ kv ∈ ([("Rachel",
        [("name", PyVal.pstr "Rachel"), ("voice_id", PyVal.pstr "v1"),
         ("category", PyVal.pstr "premade"), ("description", PyVal.pstr "calm"),
         ("labels", PyVal.pdict
            [("age", PyVal.pstr "young"), ("gender", PyVal.pstr "female"),
             ("accent", PyVal.pstr "american"), ("use case", PyVal.pstr "narration")]),
         ("fine_tuning", PyVal.pdict []), ("preview_url", PyVal.pstr "u1")]),
       ("Adam",
        [("name", PyVal.pstr "Adam"), ("voice_id", PyVal.pstr "v2"),
         ("category", PyVal.pstr "premade"), ("description", PyVal.pstr "deep"),
         ("labels", PyVal.pdict
            [("age", PyVal.pstr "middle aged"), ("gender", PyVal.pstr "male"),
             ("accent", PyVal.pstr "american"), ("use case", PyVal.pstr "news")]),
         ("fine_tuning", PyVal.pdict []), ("preview_url", PyVal.pstr "u2")])] :
        List (String × List (String × PyVal))), LiftPre kv.2)
    ∧ (∃ recs tbl, build_voices_dataframe
        [("Rachel",
          [("name", PyVal.pstr "Rachel"), ("voice_id", PyVal.pstr "v1"),
           ("category", PyVal.pstr "premade"), ("description", PyVal.pstr "calm"),
           ("labels", PyVal.pdict
              [("age", PyVal.pstr "young"), ("gender", PyVal.pstr "female"),
               ("accent", PyVal.pstr "american"), ("use case", PyVal.pstr "narration")]),
           ("fine_tuning", PyVal.pdict []), ("preview_url", PyVal.pstr "u1")]),
         ("Adam",
          [("name", PyVal.pstr "Adam"), ("voice_id", PyVal.pstr "v2"),
           ("category", PyVal.pstr "premade"), ("description", PyVal.pstr "deep"),
           ("labels", PyVal.pdict
              [("age", PyVal.pstr "middle aged"), ("gender", PyVal.pstr "male"),
               ("accent", PyVal.pstr "american"), ("use case", PyVal.pstr "news")]),
           ("fine_tuning", PyVal.pdict []), ("preview_url", PyVal.pstr "u2")])]
        = some (recs, tbl)
      ∧ tbl.tcolumns = ["category", "age", "gender", "accent", "description", "use case"]
      ∧ "labels" ∉ tbl.tcolumns
      ∧ "fine_tuning" ∉ tbl.tcolumns
      ∧ tbl.tindex = recs.map (fun kv => dget kv.2 "name")
      ∧ recs.map Prod.fst = [("Rachel",
          [("name", PyVal.pstr "Rachel"), ("voice_id", PyVal.pstr "v1"),
           ("category", PyVal.pstr "premade"), ("description", PyVal.pstr "calm"),
           ("labels", PyVal.pdict
              [("age", PyVal.pstr "young"), ("gender", PyVal.pstr "female"),
               ("accent", PyVal.pstr "american"), ("use case", PyVal.pstr "narration")]),
           ("fine_tuning", PyVal.pdict []), ("preview_url", PyVal.pstr "u1")]),
         ("Adam",
          [("name", PyVal.pstr "Adam"), ("voice_id", PyVal.pstr "v2"),
           ("category", PyVal.pstr "premade"), ("description", PyVal.pstr "deep"),
           ("labels", PyVal.pdict
              [("age", PyVal.pstr "middle aged"), ("gender", PyVal.pstr "male"),
               ("accent", PyVal.pstr "american"), ("use case", PyVal.pstr "news")]),
           ("fine_tuning", PyVal.pdict []), ("preview_url", PyVal.pstr "u2")])].map Prod.fst
      ∧ recs.length = 2
      ∧ List.Forall₂ (fun (ikv okv : String × List (String × PyVal)) =>
            okv.1 = ikv.1
            ∧ dget okv.2 "labels" = none
            ∧ dget okv.2 "fine_tuning" = none
            ∧ ∀ k v, (k, v) ∈ labelsOf ikv.2 → k ≠ "fine_tuning" → dget okv.2 k = some v)
          [("Rachel",
            [("name", PyVal.pstr "Rachel"), ("voice_id", PyVal.pstr "v1"),
             ("category", PyVal.pstr "premade"), ("description", PyVal.pstr "calm"),
             ("labels", PyVal.pdict
                [("age", PyVal.pstr "young"), ("gender", PyVal.pstr "female"),
                 ("accent", PyVal.pstr "american"), ("use case", PyVal.pstr "narration")]),
             ("fine_tuning", PyVal.pdict []), ("preview_url", PyVal.pstr "u1")]),
           ("Adam",
            [("name", PyVal.pstr "Adam"), ("voice_id", PyVal.pstr "v2"),
             ("category", PyVal.pstr "premade"), ("description", PyVal.pstr "deep"),
             ("labels", PyVal.pdict
                [("age", PyVal.pstr "middle aged"), ("gender", PyVal.pstr "male"),
                 ("accent", PyVal.pstr "american"), ("use case", PyVal.pstr "news")]),
             ("fine_tuning", PyVal.pdict []), ("preview_url", PyVal.pstr "u2")])]
          recs) := by
  refine ⟨by decide, ?_⟩
  exact build_voices_dataframe_shape _ (by decide)

/-! ## Base64 (the `base64.b64encode` used by `create_download_link`)

Standard base64 with the `A-Za-z0-9+/` alphabet and `=` padding, over
byte values (< 256). -/

/-- The standard base64 alphabet. -/
def b64Chars : List Char :=
  "ABCDEFGHIJKLMNOPQRSTUVWXYZabcdefghijklmnopqrstuvwxyz0123456789+/".toList

/-- The alphabet character of a sextet. -/
def b64Char (n : Nat) : Char := b64Chars.getD n 'A'

/-- The sextet of an alphabet character (`none` for a non-alphabet
character). -/
def b64Idx (c : Char) : Option Nat := b64Chars.findIdx? (fun x => x == c)

theorem b64Idx_b64Char : ∀ n, n < 64 → b64Idx (b64Char n) = some n := by decide

theorem b64Char_ne_pad : ∀ n, n < 64 → b64Char n ≠ '=' := by decide

/-- base64 encoding of a byte list, as characters: groups of three bytes
become four sextet characters; a trailing group of one or two bytes is
padded with `=`. -/
def b64EncodeChars : List Nat → List Char
  | [] => []
  | [a] => [b64Char (a / 4), b64Char (a % 4 * 16), '=', '=']
  | [a, b] => [b64Char (a / 4), b64Char (a % 4 * 16 + b / 16), b64Char (b % 16 * 4), '=']
  | a :: b :: c :: rest =>
    b64Char (a / 4) :: b64Char (a % 4 * 16 + b / 16) :: b64Char (b % 16 * 4 + c / 64) ::
      b64Char (c % 64) :: b64EncodeChars rest

/-- `base64.b64encode(data).decode()`: the base64 string of a byte
list. -/
def b64Encode (bs : List Nat) : String := String.mk (b64EncodeChars bs)

/-- base64 decoding: four characters at a time, honouring `=` padding on
the final group; `none` on a malformed string. -/
def b64Decode : List Char → Option (List Nat)
  | [] => some []
  | a :: b :: c :: d :: rest =>
    if c = '=' ∧ d = '=' ∧ rest = [] then
      match b64Idx a, b64Idx b with
      | some x, some y => some [x * 4 + y / 16]
      | _, _ => none
    else if d = '=' ∧ rest = [] then
      match b64Idx a, b64Idx b, b64Idx c with
      | some x, some y, some z => some [x * 4 + y / 16, y % 16 * 16 + z / 4]
      | _, _, _ => none
    else
      match b64Idx a, b64Idx b, b64Idx c, b64Idx d, b64Decode rest with
      | some x, some y, some z, some w, some tail =>
        some ((x * 4 + y / 16) :: (y % 16 * 16 + z / 4) :: (z % 4 * 64 + w) :: tail)
      | _, _, _, _, _ => none
  | _ => none

theorem b64_roundtrip (bs : List Nat) (h : ∀ x ∈ bs, x < 256) :
    b64Decode (b64EncodeChars bs) = some bs := by
  induction bs using b64EncodeChars.induct with
  | case1 => rfl
  | case2 a =>
    have ha : a < 256 := h a (by simp)
    rw [b64EncodeChars, b64Decode]
    rw [if_pos ⟨rfl, rfl, rfl⟩]
    rw [b64Idx_b64Char (a / 4) (by omega), b64Idx_b64Char (a % 4 * 16) (by omega)]
    simp only [Option.some.injEq, List.cons.injEq, and_true]
    omega
  | case3 a b =>
    have ha : a < 256 := h a (by simp)
    have hb : b < 256 := h b (by simp)
    rw [b64EncodeChars, b64Decode]
    rw [if_neg (by
      rintro ⟨hc, -, -⟩
      exact b64Char_ne_pad (b % 16 * 4) (by omega) hc)]
    rw [if_pos ⟨rfl, rfl⟩]
    rw [b64Idx_b64Char (a / 4) (by omega), b64Idx_b64Char (a % 4 * 16 + b / 16) (by omega),
      b64Idx_b64Char (b % 16 * 4) (by omega)]
    simp only [Option.some.injEq, List.cons.injEq, and_true]
    constructor
    · omega
    · omega
  | case4 a b c rest ih =>
    have ha : a < 256 := h a (by simp)
    have hb : b < 256 := h b (by simp)
    have hc : c < 256 := h c (by simp)
    have hrest : ∀ x ∈ rest, x < 256 := fun x hx => h x (by simp [hx])
    rw [b64EncodeChars, b64Decode]
    rw [if_neg (by
      rintro ⟨hpad, -, -⟩
      exact b64Char_ne_pad (b % 16 * 4 + c / 64) (by omega) hpad)]
    rw [if_neg (by
      rintro ⟨hpad, -⟩
      exact b64Char_ne_pad (c % 64) (by omega) hpad)]
    rw [b64Idx_b64Char (a / 4) (by omega), b64Idx_b64Char (a % 4 * 16 + b / 16) (by omega),
      b64Idx_b64Char (b % 16 * 4 + c / 64) (by omega), b64Idx_b64Char (c % 64) (by omega),
      ih hrest]
    simp only [Option.some.injEq, List.cons.injEq, and_true]
    refine ⟨by omega, by omega, by omega⟩

/-! ## `create_download_link` (src/app.py lines 163-170) -/

/-- Index of the last occurrence of `ch` in `cs` (Python `str.rfind`,
as an option). -/
def rfindIdx (cs : List Char) (ch : Char) : Option Nat :=
  match cs with
  | [] => none
  | c :: rest =>
    match rfindIdx rest ch with
    | some i => some (i + 1)
    | none => if c = ch then some 0 else none

/-- The final path component of the filename (`pathlib.PurePath.name`,
restricted to forward-slash separators). -/
def pyName (filename : String) : List Char :=
  match rfindIdx filename.toList '/' with
  | some i => filename.toList.drop (i + 1)
  | none => filename.toList

/-- `pathlib.Path(filename).suffix`: the final component's extension
including the leading dot — `name[i:]` for `i` the last dot's index when
`0 < i < len(name) - 1`, else the empty string. -/
def pySuffix (filename : String) : String :=
  match rfindIdx (pyName filename) '.' with
  | some i =>
    if 0 < i ∧ i + 1 < (pyName filename).length then String.mk ((pyName filename).drop i)
    else ""
  | none => ""

/-- Python `s[1:]`. -/
def strDrop1 (s : String) : String := String.mk (s.toList.drop 1)

/-- The argument of `create_download_link`: binary data (`bytes`) or
text (`str`). -/
inductive PyData where
  | binData (bs : List Nat)
  | strData (s : String)

/-- `data.encode()`: the UTF-8 bytes of a Python string. -/
def pyStrBytes (s : String) : List Nat := s.toUTF8.toList.map (fun b => b.toNat)

/-- `create_download_link` (src/app.py lines 163-170): base64-encode the
payload (text is encoded to bytes first), take
`ext = Path(filename).suffix[1:]`, and build
`<a href="data:file/{ext};base64,{b64}" download="{filename}">Download
as {ext} file</a>`. -/
def create_download_link (dataArg : PyData) (filename : String) : String :=
  let b64 := match dataArg with
    | PyData.binData bs => b64Encode bs
    | PyData.strData s => b64Encode (pyStrBytes s)
  let ext := strDrop1 (pySuffix filename)
  "<a href=\"data:file/" ++ ext ++ ";base64," ++ b64 ++ "\" download=\"" ++ filename
    ++ "\">Download as " ++ ext ++ " file</a>"

theorem pyStrBytes_lt (s : String) : ∀ x ∈ pyStrBytes s, x < 256 := by
  intro x hx
  simp only [pyStrBytes, List.mem_map] at hx
  obtain ⟨b, -, rfl⟩ := hx
  exact b.toNat_lt

/-! ## Claim C9 -/

/-- C9: for every byte payload and every filename with a suffix, the
produced hyperlink's target is a base64 data URI whose declared MIME
subtype is the filename's suffix without the leading separator, whose
visible label reads "Download as (ext) file", and whose base64 payload
decodes back to the exact original bytes; a text payload is UTF-8
encoded to bytes first and round-trips to those bytes. -/
theorem create_download_link_roundtrip (bs : List Nat) (hb : ∀ x ∈ bs, x < 256)
    (filename : String) (_hsuf : pySuffix filename ≠ "") (txt : String) :
    create_download_link (PyData.binData bs) filename
      = "<a href=\"data:file/" ++ strDrop1 (pySuffix filename) ++ ";base64," ++ b64Encode bs
        ++ "\" download=\"" ++ filename ++ "\">Download as "
        ++ strDrop1 (pySuffix filename) ++ " file</a>"
    ∧ b64Decode (b64Encode bs).toList = some bs
    ∧ create_download_link (PyData.strData txt) filename
      = "<a href=\"data:file/" ++ strDrop1 (pySuffix filename) ++ ";base64,"
        ++ b64Encode (pyStrBytes txt) ++ "\" download=\"" ++ filename
        ++ "\">Download as " ++ strDrop1 (pySuffix filename) ++ " file</a>"
    ∧ b64Decode (b64Encode (pyStrBytes txt)).toList = some (pyStrBytes txt) := by
  refine ⟨rfl, ?_, rfl, ?_⟩
  · exact b64_roundtrip bs hb
  · exact b64_roundtrip (pyStrBytes txt) (pyStrBytes_lt txt)

/-- Witness for C9: the payload `[0, 255, 77]` with the filename
`generated_voice_Alice_1700000000.mp3` — the suffix is `.mp3`, the
declared subtype and label extension are `mp3`, the label reads
"Download as mp3 file", and the base64 payload `AP9N` decodes back to
`[0, 255, 77]`. -/
theorem create_download_link_roundtrip_witness :
    (∀ x ∈ ([0, 255, 77] : List Nat), x < 256)
    ∧ pySuffix "generated_voice_Alice_1700000000.mp3" = ".mp3"
    ∧ b64Encode [0, 255, 77] = "AP9N"
    ∧ create_download_link (PyData.binData [0, 255, 77])
        "generated_voice_Alice_1700000000.mp3"
      = "<a href=\"data:file/mp3;base64,AP9N\" download=\"generated_voice_Alice_1700000000.mp3\">Download as mp3 file</a>"
    ∧ (create_download_link (PyData.binData [0, 255, 77])
          "generated_voice_Alice_1700000000.mp3"
        = "<a href=\"data:file/" ++ strDrop1 (pySuffix "generated_voice_Alice_1700000000.mp3")
          ++ ";base64," ++ b64Encode [0, 255, 77] ++ "\" download=\""
          ++ "generated_voice_Alice_1700000000.mp3" ++ "\">Download as "
          ++ strDrop1 (pySuffix "generated_voice_Alice_1700000000.mp3") ++ " file</a>"
      ∧ b64Decode (b64Encode [0, 255, 77]).toList = some [0, 255, 77]) := by
  refine ⟨by decide, by decide, by decide, by decide, ?_⟩
  have h := create_download_link_roundtrip [0, 255, 77] (by decide)
    "generated_voice_Alice_1700000000.mp3" (by decide) "hola"
  exact ⟨h.1, h.2.1⟩
